import Mathlib

/-!
Formal model of the s3-video-upload background media pipeline.

Each definition below is a shallow embedding of a function of the source
repository.  External effects (ffmpeg subprocess runs, S3 uploads, webhook
POSTs, filesystem operations) are modelled as explicit parameters: an
effect that can fail is an `Except String` value (or a function from the
attempt number to such a value, for retried calls), a file that may be
absent is an `Option`.  Video durations, which are JS numbers produced by
ffprobe, are modelled as rationals; byte sizes and counts are naturals.
-/

namespace StoryService

/-- Default byte budget of `splitVideoIntoSegments`
(src/src/services/storyService.js): 100 MB. -/
def defaultMaxSize : ℕ := 100 * 1024 * 1024

/-- Default per-segment duration bound of `splitVideoIntoSegments`: 60 s. -/
def defaultMaxDuration : ℚ := 60

/-- Segment boundary computation of `splitVideoIntoSegments`
(src/src/services/storyService.js).  `t` is the probed total duration,
`fileSize` the byte size of the source file.  The result is the ordered
list of `(startTime, segmentDuration)` windows the loop retains: when
`3 ≤ t ≤ maxDuration` and the file fits the byte budget the function
returns a single whole-duration segment; otherwise the loop runs over
`ceil (t / maxDuration)` indices and skips (`continue`) every window whose
duration is below 3 seconds.  The per-segment re-encode at a lower bitrate
for oversized outputs does not change the window list, so it does not
appear here. -/
def splitVideoIntoSegments (t : ℚ) (fileSize : ℕ) (maxDuration : ℚ) (maxSize : ℕ) :
    List (ℚ × ℚ) :=
  if 3 ≤ t ∧ t ≤ maxDuration ∧ fileSize ≤ maxSize then
    [(0, t)]
  else
    (List.range (Int.toNat ⌈t / maxDuration⌉)).filterMap (fun (i : ℕ) =>
      let startTime : ℚ := (i : ℚ) * maxDuration
      let segmentDuration : ℚ := min maxDuration (t - startTime)
      if segmentDuration < 3 then none else some (startTime, segmentDuration))

/-- Filename tag built in the read-back loop of `processStoryVideo`
(src/src/services/storyService.js): the template literal
`story-part-` followed by the plain decimal of `i + 1` and `.mp4`. -/
def storyFilename (i : ℕ) : String :=
  "story-part-" ++ Nat.repr (i + 1) ++ ".mp4"

/-- JS `String(n).padStart(3, ch)` as used by `splitVideoIntoSegments`
for its internal `segment-XXX.mp4` names (with `ch = 0`); the spec claims
the public `story-part` names carry the same zero padding. -/
def padStart3 (s : String) : String :=
  if 3 ≤ s.length then s else String.mk (List.replicate (3 - s.length) '0') ++ s

/-- One produced story artifact as pushed by `processStoryVideo`:
the segment bytes, the `story-part` filename, the byte size and the
ffprobe-measured duration. -/
structure SegmentArtifact where
  buffer : List ℕ
  filename : String
  fileSize : ℕ
  duration : ℚ
  deriving DecidableEq

/-- Read-back loop of `processStoryVideo`: for the `i`-th segment path it
reads the bytes, tags them with `storyFilename i`, the buffer length and
the measured duration.  `reads` is the list of `(bytes, duration)` pairs
the filesystem and ffprobe return for the segment paths, in order. -/
def assembleArtifacts : ℕ → List (List ℕ × ℚ) → List SegmentArtifact
  | _, [] => []
  | i, read :: rest =>
    { buffer := read.1
      filename := storyFilename i
      fileSize := read.1.length
      duration := read.2 } :: assembleArtifacts (i + 1) rest

/-- Effect environment of one `processStoryVideo` run: the outcome of
workspace creation (`fs.mkdtemp`), of the video download, of the
segmentation stage, the `(bytes, duration)` pairs read back for the
produced segments, and the outcome of the final `fs.remove` cleanup. -/
structure StoryEnv where
  mkdtempResult : Except String Unit
  downloadResult : Except String Unit
  splitResult : Except String Unit
  readResults : List (List ℕ × ℚ)
  removeResult : Except String Unit

/-- Observable outcome of one `processStoryVideo` run: the value returned
or the error rethrown by the catch block, whether the finally block
invoked the recursive `fs.remove` on the temp directory, and the cleanup
error it swallowed (logged, never rethrown), if any. -/
structure StoryRun where
  result : Except String (List SegmentArtifact)
  cleanupAttempted : Bool
  cleanupFailed : Option String

/-- Control flow of `processStoryVideo` (src/src/services/storyService.js):
create the temp dir (on failure `tempDir` stays null, so the finally block
skips cleanup and the error propagates); then download, split and read
back inside a try whose catch rethrows; the finally block always runs
`fs.remove(tempDir)` and swallows any cleanup error. -/
def processStoryVideo (env : StoryEnv) : StoryRun :=
  match env.mkdtempResult with
  | .error e => { result := .error e, cleanupAttempted := false, cleanupFailed := none }
  | .ok _ =>
    let body : Except String (List SegmentArtifact) :=
      match env.downloadResult with
      | .error e => .error e
      | .ok _ =>
        match env.splitResult with
        | .error e => .error e
        | .ok _ => .ok (assembleArtifacts 0 env.readResults)
    { result := body
      cleanupAttempted := true
      cleanupFailed :=
        match env.removeResult with
        | .ok _ => none
        | .error e => some e }

end StoryService

namespace VideoService

/-- Effect environment of one `compressVideo` run
(src/services/videoService.js): the ffmpeg availability probe, the
outcomes of `fs.mkdtemp`, of writing the input buffer, of the ffmpeg
encode (an error covers both an engine failure and the 10-minute timeout,
which rejects the same promise), the produced output file if it exists,
and the outcome of the final `fs.remove` cleanup. -/
structure CompressEnv where
  ffmpegInstalled : Bool
  mkdtempResult : Except String Unit
  writeResult : Except String Unit
  encodeResult : Except String Unit
  outputFile : Option (List ℕ)
  removeResult : Except String Unit

/-- Value returned by `compressVideo`: a byte buffer and its mimetype. -/
structure CompressOut where
  buffer : List ℕ
  mimetype : String
  deriving DecidableEq

/-- Observable outcome of one `compressVideo` run: the returned value,
whether the finally block invoked `fs.remove` on the temp directory, and
the cleanup error it swallowed (logged, never rethrown), if any. -/
structure CompressRun where
  output : CompressOut
  cleanupAttempted : Bool
  cleanupFailed : Option String

/-- The fallback value of `compressVideo`: the original unmodified buffer
with mimetype `video/mp4`. -/
def originalOut (videoBuffer : List ℕ) : CompressOut :=
  { buffer := videoBuffer, mimetype := "video/mp4" }

/-- Control flow of `compressVideo` (src/services/videoService.js): every
throw inside the try (ffmpeg missing, temp dir or write failure, encode
error or timeout, missing output file) lands in the catch, which returns
the original buffer as `video/mp4` instead of rethrowing; when the
compressed file is larger than the input the original buffer is returned;
the finally block runs `fs.remove` whenever the temp dir was created and
swallows any cleanup error. -/
def compressVideo (env : CompressEnv) (videoBuffer : List ℕ) : CompressRun :=
  if env.ffmpegInstalled = false then
    { output := originalOut videoBuffer, cleanupAttempted := false, cleanupFailed := none }
  else
    match env.mkdtempResult with
    | .error _ =>
      { output := originalOut videoBuffer, cleanupAttempted := false, cleanupFailed := none }
    | .ok _ =>
      let cleanupFailed : Option String :=
        match env.removeResult with
        | .ok _ => none
        | .error e => some e
      let finish : CompressOut → CompressRun := fun out =>
        { output := out, cleanupAttempted := true, cleanupFailed := cleanupFailed }
      match env.writeResult with
      | .error _ => finish (originalOut videoBuffer)
      | .ok _ =>
        match env.encodeResult with
        | .error _ => finish (originalOut videoBuffer)
        | .ok _ =>
          match env.outputFile with
          | none => finish (originalOut videoBuffer)
          | some compressedBuffer =>
            if compressedBuffer.length > videoBuffer.length then
              finish (originalOut videoBuffer)
            else
              finish { buffer := compressedBuffer, mimetype := "video/mp4" }

end VideoService

namespace S3Service

/-- The pair of URLs `uploadFile` (src/src/services/s3Service.js)
returns: a forced-download URL and an inline view URL. -/
structure S3Urls where
  downloadUrl : String
  viewUrl : String
  deriving DecidableEq

/-- Storage key built by `uploadFile`: `uploads/` then `Date.now()` and
the filename.  `now` is the millisecond timestamp. -/
def s3Key (now : ℕ) (fileName : String) : String :=
  "uploads/" ++ Nat.repr now ++ "-" ++ fileName

/-- Placeholder returned by `uploadFile` when all retries are exhausted:
both URLs are built on the `error-upload` host with an `error-` marker,
and the download variant carries a `download=true` query. -/
def s3ErrorUrls (now : ℕ) (fileName : String) : S3Urls :=
  let errorUrl : String :=
    "https://error-upload.s3.amazonaws.com/error-" ++ Nat.repr now ++ "-" ++ fileName
  { downloadUrl := errorUrl ++ "?download=true", viewUrl := errorUrl }

/-- Observable outcome of one `uploadFile` run: the returned value
(`none` models the unreachable fall-through of the while loop), how many
times `s3.upload` was invoked, and the backoff waits (in ms) slept
between failed attempts, in order. -/
structure UploadRun where
  result : Option S3Urls
  calls : ℕ
  waits : List ℕ
  deriving DecidableEq

/-- Retry bound of `uploadFile`: `maxRetries = 3`. -/
def maxRetries : ℕ := 3

/-- Retry loop of `uploadFile` (production path): while
`retries < maxRetries`, call `s3.upload` (modelled by `upload`, indexed by
the 0-based attempt number, yielding the `Location` on success); on
success return the signed download URL (modelled by `sign` applied to the
storage key) paired with the location; on failure increment `retries`,
return the error placeholder once `retries ≥ maxRetries`, otherwise sleep
`2 ^ retries` seconds and loop.  The first argument of the recursion is
fuel (`maxRetries` at entry), which the loop guard keeps positive. -/
def uploadAttempts (upload : ℕ → Except String String) (sign : String → String)
    (now : ℕ) (fileName : String) : ℕ → ℕ → UploadRun
  | 0, _ => { result := none, calls := 0, waits := [] }
  | fuel + 1, retries =>
    if retries < maxRetries then
      match upload retries with
      | .ok location =>
        { result := some { downloadUrl := sign (s3Key now fileName), viewUrl := location }
          calls := 1
          waits := [] }
      | .error _ =>
        let r := retries + 1
        if maxRetries ≤ r then
          { result := some (s3ErrorUrls now fileName), calls := 1, waits := [] }
        else
          let rest := uploadAttempts upload sign now fileName fuel r
          { result := rest.result, calls := rest.calls + 1, waits := 2 ^ r * 1000 :: rest.waits }
    else
      { result := none, calls := 0, waits := [] }

/-- Entry point of the `uploadFile` retry loop: `retries = 0`, fuel
`maxRetries`. -/
def uploadFile (upload : ℕ → Except String String) (sign : String → String)
    (now : ℕ) (fileName : String) : UploadRun :=
  uploadAttempts upload sign now fileName maxRetries 0

end S3Service

namespace NotificationService

/-- Value returned by `notifyFileUploaded`
(src/src/services/notificationService.js): the endpoint's response data,
the `skipped` record when no endpoint is configured, or the `error`
record carrying the last attempt's error message after exhaustion. -/
inductive NotifyResult where
  | delivered (response : String)
  | skipped (message : String)
  | exhausted (message : String) (lastError : String)
  deriving DecidableEq

/-- Notification configuration (src/src/config/config.js): `none` models
a missing (or empty, hence falsy) `NOTIFICATION_ENDPOINT`. -/
structure NotifyConfig where
  endpoint : Option String
  fileUrlField : String
  idTrabalhoField : String

/-- The message of the exhaustion record returned by
`notifyFileUploaded`. -/
def exhaustedMessage : String :=
  "Failed to send notification after multiple attempts, but file was uploaded successfully"

/-- Retry loop of `notifyFileUploaded`: while `retries < 3`, POST the
payload (modelled by `post`, indexed by the 0-based attempt number,
yielding the response data on success); on success return it; on failure
increment `retries`, return the exhaustion record with the last error
message once `retries ≥ 3`, otherwise back off and loop.  The pair's
second component counts the POSTs made; `none` models the unreachable
fall-through of the while loop. -/
def notifyAttempts (post : ℕ → Except String String) : ℕ → ℕ → Option NotifyResult × ℕ
  | 0, _ => (none, 0)
  | fuel + 1, retries =>
    if retries < 3 then
      match post retries with
      | .ok response => (some (.delivered response), 1)
      | .error e =>
        let r := retries + 1
        if 3 ≤ r then (some (.exhausted exhaustedMessage e), 1)
        else
          let rest := notifyAttempts post fuel r
          (rest.1, rest.2 + 1)
    else (none, 0)

/-- Control flow of `notifyFileUploaded`: when no endpoint is configured
return the `skipped` record at once, with no network call; otherwise run
the retry loop. -/
def notifyFileUploaded (cfg : NotifyConfig) (post : ℕ → Except String String) :
    Option NotifyResult × ℕ :=
  match cfg.endpoint with
  | none => (some (.skipped "Notification endpoint not configured"), 0)
  | some _ => notifyAttempts post 3 0

end NotificationService

namespace UploadController

/-- Observable trace of the background pipeline of `uploadFile`
(src/src/controllers/uploadController.js): whether any encoding work
(starting with `compressVideo`) was reached, and whether the catch block
invoked `notifyError`. -/
structure BgTrace where
  encodingStarted : Bool
  errorNotified : Bool
  deriving DecidableEq

/-- Control flow of the background async block of the controller's
`uploadFile`: probe `isFFmpegInstalled`; when it resolves false, log and
return at once — no compression, upload or notification runs and the
catch block is never entered; otherwise run the body (compress, upload,
extract, notify), whose uncaught exception, if any, is modelled by
`bodyResult` and routes to the catch block, which calls `notifyError`. -/
def backgroundProcess (ffmpegInstalled : Bool) (bodyResult : Except String Unit) : BgTrace :=
  if ffmpegInstalled = false then
    { encodingStarted := false, errorNotified := false }
  else
    match bodyResult with
    | .ok _ => { encodingStarted := true, errorNotified := false }
    | .error _ => { encodingStarted := true, errorNotified := true }

end UploadController

section Helpers

/-- The read-back loop produces one artifact per segment read. -/
theorem assembleArtifacts_length (k : ℕ) (reads : List (List ℕ × ℚ)) :
    (StoryService.assembleArtifacts k reads).length = reads.length := by
  induction reads generalizing k with
  | nil => rfl
  | cons a l ih => simp [StoryService.assembleArtifacts, ih]

/-- Element-wise description of the read-back loop: the artifact at
position `i` carries the bytes and duration of the `i`-th read and the
filename of index `k + i`. -/
theorem assembleArtifacts_get (k : ℕ) (reads : List (List ℕ × ℚ)) (i : ℕ)
    (h : i < (StoryService.assembleArtifacts k reads).length) (h2 : i < reads.length) :
    (StoryService.assembleArtifacts k reads).get ⟨i, h⟩ =
      { buffer := (reads.get ⟨i, h2⟩).1
        filename := StoryService.storyFilename (k + i)
        fileSize := (reads.get ⟨i, h2⟩).1.length
        duration := (reads.get ⟨i, h2⟩).2 } := by
  induction reads generalizing k i with
  | nil => simp at h2
  | cons a l ih =>
    cases i with
    | zero => simp [StoryService.assembleArtifacts]
    | succ j =>
      simp only [StoryService.assembleArtifacts, List.get_cons_succ]
      rw [ih]
      congr 2
      omega

/-- A filterMap that drops pairs whose second component is below 3 equals
the map followed by the corresponding filter. -/
theorem filterMap_window_filter (l : List ℕ) (g : ℕ → ℚ × ℚ) :
    l.filterMap (fun i => if (g i).2 < 3 then none else some (g i)) =
      (l.map g).filter (fun w => decide (3 ≤ w.2)) := by
  induction l with
  | nil => rfl
  | cons a l ih =>
    by_cases h : (g a).2 < 3 <;>
      simp [List.filterMap_cons, List.filter_cons, h, ih, not_lt.mp, h]

end Helpers

/-- C1 counterexample: with the encoder probe reporting false and any
body outcome, the background pipeline of the controller does no encoding
work but also does not invoke the failure-notification path — it logs and
returns, so the claim's "invokes the failure-notification path" is false
at this input. -/
theorem encoder_absent_counterexample :
    (UploadController.backgroundProcess false (Except.ok ())).encodingStarted = false ∧
    (UploadController.backgroundProcess false (Except.ok ())).errorNotified = false :=
  ⟨rfl, rfl⟩

/-- C1 amended: for every body outcome, when the encoder-availability
probe reports the engine absent the background pipeline does no encoding
work and ends immediately without invoking the failure-notification
path (it only logs). -/
theorem encoder_absent_aborts_silently (bodyResult : Except String Unit) :
    UploadController.backgroundProcess false bodyResult =
      { encodingStarted := false, errorNotified := false } :=
  rfl

/-- C8 counterexample: the artifact produced for the first segment is
tagged `story-part-1.mp4`, while the zero-padded form the claim asserts
(the padding the same file uses for its internal segment names) would be
`story-part-001.mp4`; the two differ. -/
theorem story_filename_counterexample :
    (StoryService.assembleArtifacts 0 [([0], 1)]).map
        (fun a => a.filename) = ["story-part-1.mp4"] ∧
    StoryService.padStart3 (Nat.repr 1) = "001" ∧
    ("story-part-1.mp4" : String) ≠ "story-part-001.mp4" :=
  ⟨rfl, rfl, by decide⟩

/-- C8 amended: for every story job, the produced segment artifacts form
an ordered list in which the artifact at position `i` (1-based) is tagged
with filename `story-part-{index}.mp4` where the index is 1-based and
written in plain decimal (not zero-padded), together with its byte size
and measured duration. -/
theorem story_artifacts_tagging (reads : List (List ℕ × ℚ)) (i : ℕ)
    (h : i < (StoryService.assembleArtifacts 0 reads).length) (h2 : i < reads.length) :
    ((StoryService.assembleArtifacts 0 reads).get ⟨i, h⟩).filename =
        "story-part-" ++ Nat.repr (i + 1) ++ ".mp4" ∧
    ((StoryService.assembleArtifacts 0 reads).get ⟨i, h⟩).buffer = (reads.get ⟨i, h2⟩).1 ∧
    ((StoryService.assembleArtifacts 0 reads).get ⟨i, h⟩).fileSize =
        (reads.get ⟨i, h2⟩).1.length ∧
    ((StoryService.assembleArtifacts 0 reads).get ⟨i, h⟩).duration =
        (reads.get ⟨i, h2⟩).2 := by
  rw [assembleArtifacts_get 0 reads i h h2]
  refine ⟨?_, rfl, rfl, rfl⟩
  simp [StoryService.storyFilename, Nat.zero_add]

/-- Witness for the amended C8 theorem at a concrete two-segment job. -/
theorem story_artifacts_tagging_witness :
    ((StoryService.assembleArtifacts 0 [([7, 8], 2), ([9], 3)]).get
        ⟨1, by decide⟩).filename = "story-part-2.mp4" := by
  have h := story_artifacts_tagging [([7, 8], 2), ([9], 3)] 1 (by decide) (by decide)
  exact h.1

/-- C2: for every total duration and source byte size (at the default
60 s / 100 MB budgets), if `3 ≤ t ≤ 60` and the size fits the budget the
planner emits exactly one segment covering the whole duration; otherwise
it forms `ceil (t / 60)` windows with `start = i * 60` and
`duration = min 60 (t - start)` and drops every window shorter than 3
seconds; in particular `t = 121` yields exactly the two segments
`(0, 60)` and `(60, 60)`. -/
theorem split_boundary_plan (t : ℚ) (sz : ℕ) :
    (3 ≤ t ∧ t ≤ 60 ∧ sz ≤ StoryService.defaultMaxSize →
      StoryService.splitVideoIntoSegments t sz 60 StoryService.defaultMaxSize = [(0, t)]) ∧
    (¬(3 ≤ t ∧ t ≤ 60 ∧ sz ≤ StoryService.defaultMaxSize) →
      StoryService.splitVideoIntoSegments t sz 60 StoryService.defaultMaxSize =
        ((List.range (Int.toNat ⌈t / 60⌉)).map
          (fun (i : ℕ) => ((i : ℚ) * 60, min 60 (t - (i : ℚ) * 60)))).filter
          (fun w => decide (3 ≤ w.2))) ∧
    StoryService.splitVideoIntoSegments 121 sz 60 StoryService.defaultMaxSize =
      [(0, 60), (60, 60)] := by
  refine ⟨fun h => ?_, fun h => ?_, ?_⟩
  · rw [StoryService.splitVideoIntoSegments, if_pos h]
  · rw [StoryService.splitVideoIntoSegments, if_neg h]
    exact filterMap_window_filter _
      (fun i => ((i : ℚ) * 60, min 60 (t - (i : ℚ) * 60)))
  · have hn : ¬(3 ≤ (121 : ℚ) ∧ (121 : ℚ) ≤ 60 ∧ sz ≤ StoryService.defaultMaxSize) := by
      rintro ⟨-, h2, -⟩
      norm_num at h2
    rw [StoryService.splitVideoIntoSegments, if_neg hn]
    refine (filterMap_window_filter _
      (fun i => ((i : ℚ) * 60, min 60 (121 - (i : ℚ) * 60)))).trans ?_
    have hc : Int.toNat ⌈(121 : ℚ) / 60⌉ = 3 := by
      have h3 : (⌈(121 : ℚ) / 60⌉ : ℤ) = 3 := by
        rw [Int.ceil_eq_iff]
        norm_num
      rw [h3]
      rfl
    rw [hc]
    norm_num [List.range_succ, min_def]

/-- Witness for the C2 theorem: the single-segment branch at
`t = 30, size = 0` and the two-segment computation at `t = 121`. -/
theorem split_boundary_plan_witness :
    StoryService.splitVideoIntoSegments 30 0 60 StoryService.defaultMaxSize = [(0, 30)] ∧
    StoryService.splitVideoIntoSegments 121 0 60 StoryService.defaultMaxSize =
      [(0, 60), (60, 60)] :=
  ⟨(split_boundary_plan 30 0).1 (by norm_num [StoryService.defaultMaxSize]),
   (split_boundary_plan 121 0).2.2⟩

/-- C10: for every source duration strictly below 3 seconds (and any
size budgets), the planner returns the empty segment list: the
single-segment branch requires a duration of at least 3, and the one
window the loop can form is shorter than 3 seconds and is dropped. -/
theorem short_video_empty_plan (t : ℚ) (sz maxSize : ℕ) (h : t < 3) :
    StoryService.splitVideoIntoSegments t sz 60 maxSize = [] := by
  rw [StoryService.splitVideoIntoSegments,
      if_neg (by rintro ⟨h3, -, -⟩; linarith)]
  have hceil : ⌈t / 60⌉ ≤ 1 := by
    rw [Int.ceil_le]
    push_cast
    rw [div_le_one (by norm_num : (0 : ℚ) < 60)]
    linarith
  have htn : Int.toNat ⌈t / 60⌉ = 0 ∨ Int.toNat ⌈t / 60⌉ = 1 := by omega
  rcases htn with h0 | h1
  · rw [h0]
    rfl
  · rw [h1]
    rw [List.filterMap_eq_nil_iff]
    intro a ha
    have ha0 : a = 0 := by simpa using ha
    subst ha0
    have hdrop : min (60 : ℚ) (t - ((0 : ℕ) : ℚ) * 60) < 3 :=
      lt_of_le_of_lt (min_le_right _ _) (by push_cast; linarith)
    exact if_pos hdrop

/-- Witness for the C10 theorem at duration 1 second. -/
theorem short_video_empty_plan_witness :
    StoryService.splitVideoIntoSegments 1 500 60 StoryService.defaultMaxSize = [] :=
  short_video_empty_plan 1 500 StoryService.defaultMaxSize (by norm_num)

/-- C3: when the storage backend fails all three attempts, `uploadFile`
returns normally with the designated error placeholder: a value whose
view URL is built on the `error-upload` marker host (distinguishable from
a genuine success, whose view URL is the backend's reported location) and
whose download URL carries the `download=true` query. -/
theorem upload_exhaustion_placeholder (upload : ℕ → Except String String)
    (sign : String → String) (now : ℕ) (fn : String) (e0 e1 e2 : String)
    (h0 : upload 0 = .error e0) (h1 : upload 1 = .error e1) (h2 : upload 2 = .error e2) :
    (S3Service.uploadFile upload sign now fn).result = some (S3Service.s3ErrorUrls now fn) ∧
    (∃ s, (S3Service.s3ErrorUrls now fn).viewUrl =
        "https://error-upload.s3.amazonaws.com/error-" ++ s) ∧
    (S3Service.s3ErrorUrls now fn).downloadUrl =
        (S3Service.s3ErrorUrls now fn).viewUrl ++ "?download=true" := by
  refine ⟨?_, ⟨Nat.repr now ++ "-" ++ fn, ?_⟩, rfl⟩
  · simp [S3Service.uploadFile, S3Service.uploadAttempts, S3Service.maxRetries, h0, h1, h2]
  · simp [S3Service.s3ErrorUrls, String.append_assoc]

/-- Witness for the C3 theorem with a backend that always fails. -/
theorem upload_exhaustion_placeholder_witness :
    (S3Service.uploadFile (fun _ => .error "network down") (fun k => k) 5 "v.mp4").result =
      some (S3Service.s3ErrorUrls 5 "v.mp4") :=
  (upload_exhaustion_placeholder (fun _ => .error "network down") (fun k => k) 5 "v.mp4"
    "network down" "network down" "network down" rfl rfl rfl).1

/-- C4: `uploadFile` makes at most 3 backend calls; the waits slept
between failed attempts are exactly `2 ^ attempt` seconds (2 s, then
4 s — the third failure returns without a further wait); and with a
backend failing the first two attempts and succeeding on the third it
returns the successful location as the view URL after exactly 3 calls. -/
theorem upload_retry_backoff (upload : ℕ → Except String String) (sign : String → String)
    (now : ℕ) (fn : String) :
    (S3Service.uploadFile upload sign now fn).calls ≤ 3 ∧
    (S3Service.uploadFile upload sign now fn).waits =
      (List.range ((S3Service.uploadFile upload sign now fn).calls - 1)).map
        (fun k => 2 ^ (k + 1) * 1000) ∧
    (∀ e0 e1 u, upload 0 = .error e0 → upload 1 = .error e1 → upload 2 = .ok u →
      (S3Service.uploadFile upload sign now fn).result =
          some { downloadUrl := sign (S3Service.s3Key now fn), viewUrl := u } ∧
      (S3Service.uploadFile upload sign now fn).calls = 3) := by
  rcases h0 : upload 0 with e0 | l0 <;> rcases h1 : upload 1 with e1 | l1 <;>
    rcases h2 : upload 2 with e2 | l2 <;>
    simp [S3Service.uploadFile, S3Service.uploadAttempts, S3Service.maxRetries,
      h0, h1, h2, List.range_succ]

/-- Witness for the C4 theorem: two failures then a success yields the
successful URL after exactly 3 calls. -/
theorem upload_retry_backoff_witness :
    (S3Service.uploadFile
        (fun n => if n < 2 then .error "boom" else .ok "https://bucket/uploads/ok.mp4")
        (fun k => k ++ "?signed") 0 "v.mp4").result =
      some { downloadUrl := S3Service.s3Key 0 "v.mp4" ++ "?signed",
             viewUrl := "https://bucket/uploads/ok.mp4" } ∧
    (S3Service.uploadFile
        (fun n => if n < 2 then .error "boom" else .ok "https://bucket/uploads/ok.mp4")
        (fun k => k ++ "?signed") 0 "v.mp4").calls = 3 :=
  (upload_retry_backoff
      (fun n => if n < 2 then .error "boom" else .ok "https://bucket/uploads/ok.mp4")
      (fun k => k ++ "?signed") 0 "v.mp4").2.2
    "boom" "boom" "https://bucket/uploads/ok.mp4" rfl rfl rfl

/-- C5: `notifyFileUploaded` always returns a value (never raises past
its boundary); with no configured endpoint it returns the skipped record
at once with zero network calls; and with an endpoint whose three
delivery attempts all fail it returns the error record carrying the last
attempt's error message. -/
theorem notify_never_raises (cfg : NotificationService.NotifyConfig)
    (post : ℕ → Except String String) :
    (NotificationService.notifyFileUploaded cfg post).1.isSome = true ∧
    (cfg.endpoint = none →
      NotificationService.notifyFileUploaded cfg post =
        (some (.skipped "Notification endpoint not configured"), 0)) ∧
    (∀ u e0 e1 e2, cfg.endpoint = some u →
      post 0 = .error e0 → post 1 = .error e1 → post 2 = .error e2 →
      (NotificationService.notifyFileUploaded cfg post).1 =
        some (.exhausted NotificationService.exhaustedMessage e2)) := by
  rcases hcfg : cfg.endpoint with _ | u
  · simp [NotificationService.notifyFileUploaded, hcfg]
  · rcases h0 : post 0 with e0 | r0 <;> rcases h1 : post 1 with e1 | r1 <;>
      rcases h2 : post 2 with e2 | r2 <;>
      simp [NotificationService.notifyFileUploaded, NotificationService.notifyAttempts,
        hcfg, h0, h1, h2]

/-- Witness for the C5 theorem: a missing endpoint is skipped with zero
calls, and an always-failing endpoint exhausts with the last error. -/
theorem notify_never_raises_witness :
    NotificationService.notifyFileUploaded
        { endpoint := none, fileUrlField := "fileUrl", idTrabalhoField := "idTrabalho" }
        (fun _ => .error "down") =
      (some (.skipped "Notification endpoint not configured"), 0) ∧
    (NotificationService.notifyFileUploaded
        { endpoint := some "https://hook.example", fileUrlField := "fileUrl",
          idTrabalhoField := "idTrabalho" }
        (fun _ => .error "down")).1 =
      some (.exhausted NotificationService.exhaustedMessage "down") :=
  ⟨(notify_never_raises _ _).2.1 rfl,
   (notify_never_raises _ _).2.2 "https://hook.example" "down" "down" "down" rfl rfl rfl rfl⟩

/-- The returned buffer of `compressVideo` is either the original buffer
or a compressed file whose byte length does not exceed the original. -/
theorem compressVideo_output_cases (env : VideoService.CompressEnv) (vb : List ℕ) :
    (VideoService.compressVideo env vb).output = VideoService.originalOut vb ∨
    ∃ c, env.outputFile = some c ∧ c.length ≤ vb.length ∧
      (VideoService.compressVideo env vb).output =
        { buffer := c, mimetype := "video/mp4" } := by
  rcases env with ⟨ff, mk, wr, enc, out, rem⟩
  cases ff
  · left
    rfl
  · cases mk with
    | error e => left; rfl
    | ok u1 =>
      cases wr with
      | error e => left; rfl
      | ok u2 =>
        cases enc with
        | error e => left; rfl
        | ok u3 =>
          cases out with
          | none => left; rfl
          | some c =>
            by_cases hc : c.length > vb.length
            · left
              simp only [VideoService.compressVideo]
              rw [if_pos hc]
              rfl
            · right
              refine ⟨c, rfl, le_of_not_lt hc, ?_⟩
              simp only [VideoService.compressVideo]
              rw [if_neg hc]
              rfl

/-- C6: `compressVideo` never produces an output larger than its input:
the returned buffer is never longer than the original, and whenever the
encoded file is strictly longer than the original buffer, the original
buffer itself is returned. -/
theorem compress_never_inflates (env : VideoService.CompressEnv) (vb : List ℕ) :
    (VideoService.compressVideo env vb).output.buffer.length ≤ vb.length ∧
    (∀ c, env.outputFile = some c → vb.length < c.length →
      (VideoService.compressVideo env vb).output.buffer = vb) := by
  rcases compressVideo_output_cases env vb with h | ⟨c, hout, hle, h⟩
  · refine ⟨?_, fun c hc hlt => ?_⟩
    · rw [h]
      exact le_rfl
    · rw [h]
      rfl
  · refine ⟨by rw [h]; exact hle, fun c2 hc2 hlt => ?_⟩
    rw [hout] at hc2
    injection hc2 with hcc
    subst hcc
    omega

/-- Witness for the C6 theorem: a three-byte encode of a one-byte input
is discarded and the original buffer is forwarded. -/
theorem compress_never_inflates_witness :
    (VideoService.compressVideo
        { ffmpegInstalled := true, mkdtempResult := .ok (), writeResult := .ok (),
          encodeResult := .ok (), outputFile := some [1, 2, 3], removeResult := .ok () }
        [9]).output.buffer = [9] :=
  (compress_never_inflates _ [9]).2 [1, 2, 3] rfl (by decide)

/-- C9: on any internal failure (ffmpeg missing, temp dir or write
failure, encoding error or timeout, missing output file) `compressVideo`
returns the original unmodified buffer with mimetype `video/mp4` instead
of propagating the error. -/
theorem compress_failure_returns_original (env : VideoService.CompressEnv) (vb : List ℕ)
    (h : env.ffmpegInstalled = false ∨ (∃ e, env.mkdtempResult = .error e) ∨
         (∃ e, env.writeResult = .error e) ∨ (∃ e, env.encodeResult = .error e) ∨
         env.outputFile = none) :
    (VideoService.compressVideo env vb).output = VideoService.originalOut vb := by
  rcases env with ⟨ff, mk, wr, enc, out, rem⟩
  cases ff <;> cases mk <;> cases wr <;> cases enc <;> cases out <;>
    simp_all [VideoService.compressVideo]

/-- Witness for the C9 theorem: a missing encoder degrades to the
original buffer as `video/mp4`. -/
theorem compress_failure_returns_original_witness :
    (VideoService.compressVideo
        { ffmpegInstalled := false, mkdtempResult := .ok (), writeResult := .ok (),
          encodeResult := .ok (), outputFile := some [], removeResult := .ok () }
        [5]).output = VideoService.originalOut [5] :=
  compress_failure_returns_original _ [5] (Or.inl rfl)

/-- C7: for both pipeline workspaces, whenever the temp directory was
created the recursive removal is invoked on every exit path — success,
early failure, or a rethrown downstream exception — and a failure of the
removal itself is recorded (logged) but never changes the run's result. -/
theorem workspace_cleanup_all_paths (env : StoryService.StoryEnv)
    (cenv : VideoService.CompressEnv) (vb : List ℕ) :
    (env.mkdtempResult = .ok () →
      (StoryService.processStoryVideo env).cleanupAttempted = true) ∧
    (∀ r1 r2 : Except String Unit,
      (StoryService.processStoryVideo { env with removeResult := r1 }).result =
        (StoryService.processStoryVideo { env with removeResult := r2 }).result) ∧
    (cenv.ffmpegInstalled = true → cenv.mkdtempResult = .ok () →
      (VideoService.compressVideo cenv vb).cleanupAttempted = true) ∧
    (∀ r1 r2 : Except String Unit,
      (VideoService.compressVideo { cenv with removeResult := r1 } vb).output =
        (VideoService.compressVideo { cenv with removeResult := r2 } vb).output) := by
  rcases env with ⟨mk, dl, sp, rd, rm⟩
  rcases cenv with ⟨ff, cmk, wr, enc, out, crem⟩
  refine ⟨?_, ?_, ?_, ?_⟩
  · intro h
    subst h
    rfl
  · intro r1 r2
    cases mk <;> rfl
  · intro hff h
    subst hff
    subst h
    cases wr <;> cases enc <;> cases out <;>
      (simp only [VideoService.compressVideo]
       split_ifs <;> first | rfl | simp_all)
  · intro r1 r2
    cases ff <;> cases cmk <;> cases wr <;> cases enc <;> cases out <;>
      first
        | rfl
        | (simp only [VideoService.compressVideo]; split_ifs <;> rfl)

/-- Witness for the C7 theorem: a story job whose download fails and
whose cleanup also fails still attempts the cleanup, and a compress run
with the encoder present attempts its cleanup. -/
theorem workspace_cleanup_all_paths_witness :
    (StoryService.processStoryVideo
        { mkdtempResult := .ok (), downloadResult := .error "dns failure",
          splitResult := .ok (), readResults := [],
          removeResult := .error "device busy" }).cleanupAttempted = true ∧
    (VideoService.compressVideo
        { ffmpegInstalled := true, mkdtempResult := .ok (), writeResult := .ok (),
          encodeResult := .error "killed", outputFile := none, removeResult := .ok () }
        [3]).cleanupAttempted = true := by
  have h := workspace_cleanup_all_paths
    { mkdtempResult := .ok (), downloadResult := .error "dns failure",
      splitResult := .ok (), readResults := [], removeResult := .error "device busy" }
    { ffmpegInstalled := true, mkdtempResult := .ok (), writeResult := .ok (),
      encodeResult := .error "killed", outputFile := none, removeResult := .ok () }
    [3]
  exact ⟨h.1 rfl, h.2.2.1 rfl rfl⟩
